import Mathlib

/-!
Verification development for the Bedrock agent service
(`src/agent-service/app.py`): a shallow embedding of the tool registry
(`MCPClient.fetch_all_tools`, `MCPClient.execute_tool`) and of the
conversation driver (`BedrockAgent.run`), together with theorems about
their behaviour.

Network effects (HTTP calls to tool servers, the Bedrock `converse`
call) are modelled by oracle functions passed as parameters; the mutable
client state (`tools_cache`, `tool_to_server`) is threaded explicitly.
-/

namespace AgentService

/-- JSON values, used for tool input schemas, tool arguments and
response bodies.  Object fields keep their insertion order, matching
Python dicts. -/
inductive Json where
  | null : Json
  | bool (b : Bool) : Json
  | num (n : Int) : Json
  | str (s : String) : Json
  | arr (elems : List Json) : Json
  | obj (fields : List (String × Json)) : Json

/-- Escape a character the way Python's `json.dumps` does for the plain
ASCII strings that occur in this service (quote, backslash and the
common control characters; full `\uXXXX` escaping of other control or
non-ASCII characters is not needed for any value this code produces). -/
def escapeChar (c : Char) : String :=
  if c = '"' then "\\\""
  else if c = '\\' then "\\\\"
  else if c = '\n' then "\\n"
  else if c = '\t' then "\\t"
  else if c = '\r' then "\\r"
  else String.singleton c

/-- Escape a list of characters for JSON serialization, in order. -/
def escapeChars : List Char → String
  | [] => ""
  | c :: rest => escapeChar c ++ escapeChars rest

/-- Escape a whole string for JSON serialization. -/
def escapeString (s : String) : String :=
  escapeChars s.data

mutual

/-- Serialization of a JSON value, matching Python's `json.dumps`
defaults (separators are a comma plus space and a colon plus space). -/
def Json.dumps : Json → String
  | .null => "null"
  | .bool true => "true"
  | .bool false => "false"
  | .num n => toString n
  | .str s => "\"" ++ escapeString s ++ "\""
  | .arr elems => "[" ++ dumpsElems elems ++ "]"
  | .obj fields => "\x7b" ++ dumpsFields fields ++ "\x7d"

/-- Serialization of the element list of a JSON array. -/
def dumpsElems : List Json → String
  | [] => ""
  | [x] => Json.dumps x
  | x :: y :: rest => Json.dumps x ++ ", " ++ dumpsElems (y :: rest)

/-- Serialization of the field list of a JSON object. -/
def dumpsFields : List (String × Json) → String
  | [] => ""
  | [(k, v)] => "\"" ++ escapeString k ++ "\": " ++ Json.dumps v
  | (k, v) :: g :: rest =>
      "\"" ++ escapeString k ++ "\": " ++ Json.dumps v ++ ", " ++ dumpsFields (g :: rest)

end

/-- Default input schema used when an MCP tool declares none
(`tool.get("inputSchema", {"type": "object", "properties": {}, "required": []})`,
app.py lines 72-76). -/
def defaultSchema : Json :=
  Json.obj [("type", Json.str "object"), ("properties", Json.obj []), ("required", Json.arr [])]

/-- A tool definition in Bedrock format.  The source wraps this as
`{"toolSpec": {"name": ..., "description": ..., "inputSchema": {"json": ...}}}`
(app.py lines 67-79); the constant wrapper keys are structural, so the
record keeps the three varying components. -/
structure ToolSpec where
  name : String
  description : String
  inputSchema : Json

/-- Lookup of a string-valued field with a default, modelling
`tool.get(key, default)` for fields expected to be strings. -/
def getStr (fields : List (String × Json)) (key dflt : String) : String :=
  match fields.lookup key with
  | some (Json.str s) => s
  | _ => dflt

/-- Conversion of one MCP tool JSON entry into Bedrock format (app.py
lines 67-79).  `none` models the entry raising inside the per-endpoint
`try` block: `tool["name"]` raises `KeyError` when the entry has no
`name` key and `TypeError` when the entry is not a dict (the embedding
also treats a non-string name as a failure, since tool names are used
as string map keys throughout). -/
def convertTool (j : Json) : Option ToolSpec :=
  match j with
  | Json.obj fields =>
    match fields.lookup "name" with
    | some (Json.str n) =>
        some { name := n,
               description := getStr fields "description" "",
               inputSchema := (fields.lookup "inputSchema").getD defaultSchema }
    | _ => none
  | _ => none

/-- Outcome of the HTTP `GET {server_url}/tools` call, as seen after
response parsing: `resp status body` is a response whose JSON body
parsed successfully (only inspected when status is 200); `exn` is any
raised exception (network error, or a body `response.json()` cannot
parse), caught by the per-endpoint handler at app.py lines 83-84. -/
inductive ListOutcome where
  | resp (status : Nat) (body : Json) : ListOutcome
  | exn (msg : String) : ListOutcome

/-- The mutable state of `MCPClient` (app.py lines 48-50): the one-shot
tools cache and the tool-name to server-url map. -/
structure MCPClientState where
  tools_cache : Option (List ToolSpec)
  tool_to_server : List (String × String)

/-- Fresh `MCPClient()` state: no cache, empty map. -/
def initialClient : MCPClientState :=
  { tools_cache := none, tool_to_server := [] }

/-- Insertion into a Python dict modelled as an ordered association
list: an existing key keeps its position but gets the new value, a new
key is appended. -/
def dictInsert : List (String × String) → String → String → List (String × String)
  | [], k, v => [(k, v)]
  | (k', v') :: rest, k, v =>
      if k' = k then (k, v) :: rest else (k', v') :: dictInsert rest k v

/-- Extraction of the tool list from a `/tools` response body:
`tools_data.get("tools", [])` (app.py line 65).  `none` models the
iteration raising before any entry is processed (body not a dict, or a
`tools` value that is not iterable as tool dicts); a missing `tools`
key defaults to the empty list. -/
def extractToolList (body : Json) : Option (List Json) :=
  match body with
  | Json.obj fields =>
    match fields.lookup "tools" with
    | some (Json.arr ts) => some ts
    | some _ => none
    | none => some []
  | _ => none

/-- The inner `for tool in tools_data.get("tools", [])` loop of one
endpoint (app.py lines 65-82): each well-formed entry is appended to
the merged catalog and its name is mapped to this endpoint's url; a
malformed entry raises, aborting this endpoint's loop but keeping the
entries appended before it (the `except` is per endpoint, outside this
loop). -/
def addTools (url : String) :
    List ToolSpec × List (String × String) → List Json → List ToolSpec × List (String × String)
  | acc, [] => acc
  | acc, t :: rest =>
    match convertTool t with
    | some spec => addTools url (acc.1 ++ [spec], dictInsert acc.2 spec.name url) rest
    | none => acc

/-- Processing of one configured endpoint during the catalog fetch
(app.py lines 60-84): query it, and on a 200 response with a
well-formed body fold its tools in; any failure leaves the accumulator
unchanged (logged and skipped in the source). -/
def fetchStep (net : String → ListOutcome)
    (acc : List ToolSpec × List (String × String)) (server : String × String) :
    List ToolSpec × List (String × String) :=
  match net server.2 with
  | ListOutcome.resp status body =>
    if status = 200 then
      match extractToolList body with
      | some ts => addTools server.2 acc ts
      | none => acc
    else acc
  | ListOutcome.exn _ => acc

/-- The catalog fetch `MCPClient.fetch_all_tools` (app.py lines 52-87).
`servers` is the configured `MCP_SERVERS` registry as (name, url)
pairs; `net` is the network oracle for the per-endpoint `/tools` GET.
Returns the catalog, the updated client state, and (as observable
instrumentation) the list of urls actually queried: on a cache hit the
cached catalog is returned at once, the state is untouched and no
request is issued; on a miss every configured endpoint is queried and
the result is stored in the cache. -/
def fetch_all_tools (servers : List (String × String)) (net : String → ListOutcome)
    (st : MCPClientState) : List ToolSpec × MCPClientState × List String :=
  match st.tools_cache with
  | some cache => (cache, st, [])
  | none =>
    let result := servers.foldl (fetchStep net) ([], st.tool_to_server)
    (result.1,
     { tools_cache := some result.1, tool_to_server := result.2 },
     servers.map (fun s => s.2))

/-- The not-found payload of `execute_tool`:
`json.dumps({"error": f"Tool {tool_name} not found"})` (app.py line 93). -/
def toolNotFoundPayload (tool_name : String) : String :=
  Json.dumps (Json.obj [("error", Json.str ("Tool " ++ tool_name ++ " not found"))])

/-- Outcome of the HTTP `POST {server_url}/execute` call: `resp` is a
response with its status, parsed JSON body (only inspected when status
is 200) and raw text (only used for non-200 statuses); `exn` is any
raised exception (timeout, network error, unparseable 200 body), caught
at app.py lines 114-115. -/
inductive ExecOutcome where
  | resp (status : Nat) (body : Json) (text : String) : ExecOutcome
  | exn (msg : String) : ExecOutcome

/-- Handling of the `/execute` response (app.py lines 106-115): on a
200 status, serialize `result.get("result", result)`; on any other
status, a structured error payload with status and response text; on a
raised exception, a structured error payload with the message.  A 200
body that is not a JSON object makes `result.get` raise
`AttributeError`, landing in the same generic handler. -/
def handleExecOutcome : ExecOutcome → String
  | ExecOutcome.resp status body text =>
    if status = 200 then
      match body with
      | Json.obj fields => Json.dumps ((fields.lookup "result").getD (Json.obj fields))
      | _ => Json.dumps (Json.obj
          [("error", Json.str "Tool execution error: response body is not a JSON object")])
    else Json.dumps (Json.obj
        [("error", Json.str ("Tool execution failed: " ++ toString status)),
         ("details", Json.str text)])
  | ExecOutcome.exn msg =>
      Json.dumps (Json.obj [("error", Json.str ("Tool execution error: " ++ msg))])

/-- The tool dispatch `MCPClient.execute_tool` (app.py lines 89-115).
`net` is the network oracle for the `/execute` POST.  A name absent
from the lookup map — or mapped to an empty url, since the source
checks Python truthiness with `if not server_url` — yields the
not-found payload as returned data; otherwise the owning endpoint is
called and its outcome rendered.  The function is total: every failure
is returned as a serialized payload, never thrown. -/
def execute_tool (tool_to_server : List (String × String))
    (net : String → String → Json → ExecOutcome)
    (tool_name : String) (tool_input : Json) : String :=
  match tool_to_server.lookup tool_name with
  | none => toolNotFoundPayload tool_name
  | some server_url =>
    if server_url = "" then toolNotFoundPayload tool_name
    else handleExecOutcome (net server_url tool_name tool_input)

/-- A content block of a conversation message.  The source inspects
only the `text` and `toolUse` keys of blocks it receives and constructs
tool-result blocks as
`{"toolResult": {"toolUseId": ..., "content": [{"text": result}]}}`
(app.py lines 196-201), so a tool-result block carries its call id and
its single text payload. -/
inductive ContentBlock where
  | text (s : String) : ContentBlock
  | toolUse (toolUseId : String) (name : String) (input : Json) : ContentBlock
  | toolResult (toolUseId : String) (result : String) : ContentBlock

/-- A conversation message: a role and ordered content blocks. -/
structure Message where
  role : String
  content : List ContentBlock

/-- One entry of the tool-call log (app.py lines 187-191). -/
structure ToolCallEntry where
  tool : String
  input : Json
  tool_use_id : String

/-- Result of one `bedrock.converse` call as the `try` block observes
it: `reply` is a well-formed response with its `stopReason` (absent
`stopReason` is `none`, since the source reads it with `.get`) and its
output message; `clientError` is a raised `botocore` `ClientError`
carrying the backend's error message; `otherError` is any other raised
exception (transport fault, malformed response missing
`response["output"]["message"]`, ...), carrying its string rendering. -/
inductive BackendResult where
  | reply (stopReason : Option String) (message : Message) : BackendResult
  | clientError (msg : String) : BackendResult
  | otherError (msg : String) : BackendResult

/-- The `toolConfig` argument of the `converse` call (app.py lines
150-153): the tool list with automatic tool choice when the catalog is
non-empty, `None` when it is empty (an empty Python list is falsy). -/
def toolConfig (tools : List ToolSpec) : Option (List ToolSpec) :=
  if tools.isEmpty then none else some tools

/-- Rendering of a stop reason into an f-string, as
`f"Unexpected stop reason: {stop_reason}"` would print it. -/
def stopReasonStr : Option String → String
  | some s => s
  | none => "None"

/-- Concatenation of the text pieces of an assistant message's content
blocks, in order (app.py lines 164-167); blocks without a `text` key
contribute nothing. -/
def concatTexts (blocks : List ContentBlock) : String :=
  blocks.foldl
    (fun acc b =>
      match b with
      | ContentBlock.text t => acc ++ t
      | _ => acc)
    ""

/-- The tool-use branch's inner loop (app.py lines 177-201): for each
`toolUse` content block, in order, append (name, input, call id) to the
call log, dispatch via `execute_tool`, and append a `toolResult` block
tagged with the same call id.  Returns the extended log and the
tool-result block list. -/
def processToolUses (tool_to_server : List (String × String))
    (execNet : String → String → Json → ExecOutcome)
    (blocks : List ContentBlock) (log : List ToolCallEntry) :
    List ToolCallEntry × List ContentBlock :=
  blocks.foldl
    (fun acc b =>
      match b with
      | ContentBlock.toolUse id name input =>
          (acc.1 ++ [{ tool := name, input := input, tool_use_id := id }],
           acc.2 ++ [ContentBlock.toolResult id
             (execute_tool tool_to_server execNet name input)])
      | _ => acc)
    (log, [])

/-- The wire-visible response of `BedrockAgent.run` (the `AgentResponse`
pydantic model, app.py lines 39-42). -/
structure AgentResponse where
  response : String
  turns : Nat
  tool_calls : List ToolCallEntry

/-- Which return branch of `run` produced the response.  The source
returns a bare `AgentResponse`; this ghost tag records the terminal
state of the conversation driver (which `return` statement ran) without
changing the computed fields. -/
inductive Outcome where
  | completed : Outcome
  | truncated : Outcome
  | unrecognized : Outcome
  | aborted : Outcome
  | exhausted : Outcome
deriving DecidableEq

/-- Result of a `run` invocation: the returned `AgentResponse` plus
ghost observations — the terminal branch taken, the final value of the
local `messages` history, and how many `bedrock.converse` calls were
issued. -/
structure RunResult where
  resp : AgentResponse
  outcome : Outcome
  messages : List Message
  backendCalls : Nat

/-- The `while turns < max_turns` loop of `BedrockAgent.run` (app.py
lines 142-243), with the remaining iteration budget as fuel (the
counter starts at 0 and is incremented at the top of each iteration, so
the budget is `max_turns - turns`).  `backend` is the `converse`
oracle, a function of the tool configuration and the history sent. -/
def runLoop (backend : Option (List ToolSpec) → List Message → BackendResult)
    (tool_to_server : List (String × String))
    (execNet : String → String → Json → ExecOutcome)
    (tools : List ToolSpec) :
    Nat → List Message → List ToolCallEntry → Nat → Nat → RunResult
  | 0, messages, log, turns, calls =>
      { resp := { response := "Max turns reached", turns := turns, tool_calls := log },
        outcome := Outcome.exhausted, messages := messages, backendCalls := calls }
  | fuel + 1, messages, log, turns, calls =>
    match backend (toolConfig tools) messages with
    | BackendResult.clientError m =>
        { resp := { response := "Bedrock API error: " ++ m, turns := turns + 1,
                    tool_calls := log },
          outcome := Outcome.aborted, messages := messages, backendCalls := calls + 1 }
    | BackendResult.otherError m =>
        { resp := { response := "Agent error: " ++ m, turns := turns + 1,
                    tool_calls := log },
          outcome := Outcome.aborted, messages := messages, backendCalls := calls + 1 }
    | BackendResult.reply stopReason outMsg =>
      if stopReason = some "end_turn" then
        { resp := { response := concatTexts outMsg.content, turns := turns + 1,
                    tool_calls := log },
          outcome := Outcome.completed, messages := messages ++ [outMsg],
          backendCalls := calls + 1 }
      else if stopReason = some "tool_use" then
        let r := processToolUses tool_to_server execNet outMsg.content log
        runLoop backend tool_to_server execNet tools fuel
          (messages ++ [outMsg, { role := "user", content := r.2 }])
          r.1 (turns + 1) (calls + 1)
      else if stopReason = some "max_tokens" then
        { resp := { response := "Response truncated due to max tokens", turns := turns + 1,
                    tool_calls := log },
          outcome := Outcome.truncated, messages := messages ++ [outMsg],
          backendCalls := calls + 1 }
      else
        { resp := { response := "Unexpected stop reason: " ++ stopReasonStr stopReason,
                    turns := turns + 1, tool_calls := log },
          outcome := Outcome.unrecognized, messages := messages ++ [outMsg],
          backendCalls := calls + 1 }

/-- The driver `BedrockAgent.run` (app.py lines 127-243): seed the
history with the user message, fetch the (cached) tool catalog, then
run the turn loop.  `max_turns` is an `Int` because the caller-supplied
bound is an arbitrary Python int; the loop body runs `max 0 max_turns`
times at most.  Returns the run result and the client state after the
catalog fetch. -/
def run (servers : List (String × String)) (listNet : String → ListOutcome)
    (backend : Option (List ToolSpec) → List Message → BackendResult)
    (execNet : String → String → Json → ExecOutcome)
    (st : MCPClientState) (user_message : String) (max_turns : Int) :
    RunResult × MCPClientState :=
  let messages : List Message := [{ role := "user", content := [ContentBlock.text user_message] }]
  let fetched := fetch_all_tools servers listNet st
  (runLoop backend fetched.2.1.tool_to_server execNet fetched.1
      max_turns.toNat messages [] 0 0,
   fetched.2.1)

/-! ### Characterization of tool-use processing -/

/-- The (call id, tool name, input) triples of the `toolUse` blocks of
a content list, in presentation order. -/
def toolUseTriples : List ContentBlock → List (String × String × Json)
  | [] => []
  | ContentBlock.toolUse id name input :: rest => (id, name, input) :: toolUseTriples rest
  | _ :: rest => toolUseTriples rest

/-- The log entries the tool-use branch records for a given triple
list, in order. -/
def triplesLog (l : List (String × String × Json)) : List ToolCallEntry :=
  l.map (fun t => { tool := t.2.1, input := t.2.2, tool_use_id := t.1 })

/-- The tool-result blocks the tool-use branch builds for a given
triple list: each dispatch result wrapped as a `toolResult` block
tagged with the originating call id. -/
def triplesResults (tool_to_server : List (String × String))
    (execNet : String → String → Json → ExecOutcome)
    (l : List (String × String × Json)) : List ContentBlock :=
  l.map (fun t => ContentBlock.toolResult t.1 (execute_tool tool_to_server execNet t.2.1 t.2.2))

/-- Decides whether, starting from the given history and log, every one
of the next `fuel` backend calls replies with the `tool_use` stop
reason (the only non-terminal branch of the loop), evolving the history
and log exactly as the loop does. -/
def allToolUseReplies (backend : Option (List ToolSpec) → List Message → BackendResult)
    (tts : List (String × String)) (execNet : String → String → Json → ExecOutcome)
    (tools : List ToolSpec) :
    Nat → List Message → List ToolCallEntry → Bool
  | 0, _, _ => true
  | fuel + 1, messages, log =>
    match backend (toolConfig tools) messages with
    | BackendResult.reply stopReason outMsg =>
      if stopReason = some "tool_use" then
        let r := processToolUses tts execNet outMsg.content log
        allToolUseReplies backend tts execNet tools fuel
          (messages ++ [outMsg, { role := "user", content := r.2 }]) r.1
      else false
    | _ => false

/-- Conversion of the leading well-formed entries of one endpoint's
tool list: conversion stops at the first malformed entry (which raises
in the source), keeping everything before it. -/
def convertLeading : List Json → List ToolSpec
  | [] => []
  | t :: rest =>
    match convertTool t with
    | some spec => spec :: convertLeading rest
    | none => []

/-- The catalog contribution of a single endpoint, computed in
isolation: nothing unless the endpoint answers 200 with a body whose
tool list is extractable, and then the converted leading entries of
that list. -/
def endpointContribution (net : String → ListOutcome) (url : String) : List ToolSpec :=
  match net url with
  | ListOutcome.resp status body =>
    if status = 200 then
      match extractToolList body with
      | some ts => convertLeading ts
      | none => []
    else []
  | ListOutcome.exn _ => []

/-- The default `MCP_SERVERS` registry of the source (app.py lines
16-17 and 23-26), with the default endpoint urls. -/
def MCP_SERVERS : List (String × String) :=
  [("filesystem", "http://mcp-filesystem:3001"), ("calculator", "http://mcp-calculator:3002")]

/-- The text payload of a content block, if it is a text block. -/
def textOf : ContentBlock → Option String
  | ContentBlock.text s => some s
  | _ => none

/-- Concatenation of a list of strings, in order. -/
def joinText : List String → String
  | [] => ""
  | s :: rest => s ++ joinText rest

/-- Whether a backend-call result is a raised fault rather than a
well-formed reply. -/
def BackendResult.isFault : BackendResult → Bool
  | BackendResult.clientError _ => true
  | BackendResult.otherError _ => true
  | BackendResult.reply _ _ => false

/-- The error message `run` reports for a backend-call fault (app.py
lines 223-237). -/
def renderFault : BackendResult → String
  | BackendResult.clientError m => "Bedrock API error: " ++ m
  | BackendResult.otherError m => "Agent error: " ++ m
  | BackendResult.reply _ _ => ""

/-- Scenario for C3: every endpoint answers 200 with a single tool
named `calc`. -/
def dupNet : String → ListOutcome :=
  fun _ => ListOutcome.resp 200
    (Json.obj [("tools", Json.arr [Json.obj [("name", Json.str "calc")]])])

/-- Scenario for C3: two configured endpoints. -/
def dupServers : List (String × String) :=
  [("filesystem", "http://a"), ("calculator", "http://b")]

/-- Scenario for C6: endpoint `alpha` answers with a well-formed tool
`good` followed by a malformed entry (no `name` key, so processing it
raises mid-loop); endpoint `beta` answers with the single tool
`other`. -/
def c6Net : String → ListOutcome :=
  fun u =>
    if u = "http://alpha" then
      ListOutcome.resp 200 (Json.obj [("tools", Json.arr
        [Json.obj [("name", Json.str "good")], Json.obj [("oops", Json.null)]])])
    else
      ListOutcome.resp 200 (Json.obj [("tools", Json.arr [Json.obj [("name", Json.str "other")]])])

/-- Scenario for C6: the two configured endpoints. -/
def c6Servers : List (String × String) :=
  [("alpha", "http://alpha"), ("beta", "http://beta")]

theorem processToolUses_eq (tts : List (String × String))
    (execNet : String → String → Json → ExecOutcome)
    (blocks : List ContentBlock) (log : List ToolCallEntry) :
    processToolUses tts execNet blocks log =
      (log ++ triplesLog (toolUseTriples blocks),
       triplesResults tts execNet (toolUseTriples blocks)) := by
  suffices h : ∀ blocks log acc,
      blocks.foldl
        (fun acc b =>
          match b with
          | ContentBlock.toolUse id name input =>
              (acc.1 ++ [{ tool := name, input := input, tool_use_id := id }],
               acc.2 ++ [ContentBlock.toolResult id (execute_tool tts execNet name input)])
          | _ => acc)
        (log, acc) =
        (log ++ triplesLog (toolUseTriples blocks),
         acc ++ triplesResults tts execNet (toolUseTriples blocks)) by
    simpa [processToolUses] using h blocks log []
  intro blocks
  induction blocks with
  | nil => intro log acc; simp [toolUseTriples, triplesLog, triplesResults]
  | cons b rest ih =>
    intro log acc
    cases b with
    | text s => simpa [toolUseTriples] using ih log acc
    | toolResult id r => simpa [toolUseTriples] using ih log acc
    | toolUse id name input =>
      simp only [List.foldl_cons]
      rw [ih]
      simp [toolUseTriples, triplesLog, triplesResults]

/-! ### Step lemmas for the turn loop -/

theorem runLoop_clientError (backend : Option (List ToolSpec) → List Message → BackendResult)
    (tts : List (String × String)) (execNet : String → String → Json → ExecOutcome)
    (tools : List ToolSpec) (fuel : Nat) (messages : List Message)
    (log : List ToolCallEntry) (turns calls : Nat) (m : String)
    (h : backend (toolConfig tools) messages = BackendResult.clientError m) :
    runLoop backend tts execNet tools (fuel + 1) messages log turns calls =
      { resp := { response := "Bedrock API error: " ++ m, turns := turns + 1,
                  tool_calls := log },
        outcome := Outcome.aborted, messages := messages, backendCalls := calls + 1 } := by
  simp [runLoop, h]

theorem runLoop_otherError (backend : Option (List ToolSpec) → List Message → BackendResult)
    (tts : List (String × String)) (execNet : String → String → Json → ExecOutcome)
    (tools : List ToolSpec) (fuel : Nat) (messages : List Message)
    (log : List ToolCallEntry) (turns calls : Nat) (m : String)
    (h : backend (toolConfig tools) messages = BackendResult.otherError m) :
    runLoop backend tts execNet tools (fuel + 1) messages log turns calls =
      { resp := { response := "Agent error: " ++ m, turns := turns + 1,
                  tool_calls := log },
        outcome := Outcome.aborted, messages := messages, backendCalls := calls + 1 } := by
  simp [runLoop, h]

theorem runLoop_endTurn (backend : Option (List ToolSpec) → List Message → BackendResult)
    (tts : List (String × String)) (execNet : String → String → Json → ExecOutcome)
    (tools : List ToolSpec) (fuel : Nat) (messages : List Message)
    (log : List ToolCallEntry) (turns calls : Nat) (outMsg : Message)
    (h : backend (toolConfig tools) messages = BackendResult.reply (some "end_turn") outMsg) :
    runLoop backend tts execNet tools (fuel + 1) messages log turns calls =
      { resp := { response := concatTexts outMsg.content, turns := turns + 1,
                  tool_calls := log },
        outcome := Outcome.completed, messages := messages ++ [outMsg],
        backendCalls := calls + 1 } := by
  simp [runLoop, h]

theorem runLoop_toolUse (backend : Option (List ToolSpec) → List Message → BackendResult)
    (tts : List (String × String)) (execNet : String → String → Json → ExecOutcome)
    (tools : List ToolSpec) (fuel : Nat) (messages : List Message)
    (log : List ToolCallEntry) (turns calls : Nat) (outMsg : Message)
    (h : backend (toolConfig tools) messages = BackendResult.reply (some "tool_use") outMsg) :
    runLoop backend tts execNet tools (fuel + 1) messages log turns calls =
      runLoop backend tts execNet tools fuel
        (messages ++ [outMsg,
          { role := "user",
            content := triplesResults tts execNet (toolUseTriples outMsg.content) }])
        (log ++ triplesLog (toolUseTriples outMsg.content)) (turns + 1) (calls + 1) := by
  simp [runLoop, h, processToolUses_eq]

theorem runLoop_maxTokens (backend : Option (List ToolSpec) → List Message → BackendResult)
    (tts : List (String × String)) (execNet : String → String → Json → ExecOutcome)
    (tools : List ToolSpec) (fuel : Nat) (messages : List Message)
    (log : List ToolCallEntry) (turns calls : Nat) (outMsg : Message)
    (h : backend (toolConfig tools) messages = BackendResult.reply (some "max_tokens") outMsg) :
    runLoop backend tts execNet tools (fuel + 1) messages log turns calls =
      { resp := { response := "Response truncated due to max tokens", turns := turns + 1,
                  tool_calls := log },
        outcome := Outcome.truncated, messages := messages ++ [outMsg],
        backendCalls := calls + 1 } := by
  simp [runLoop, h]

/-! ### Exhaustion characterization -/

theorem runLoop_turns_le (backend : Option (List ToolSpec) → List Message → BackendResult)
    (tts : List (String × String)) (execNet : String → String → Json → ExecOutcome)
    (tools : List ToolSpec) :
    ∀ (fuel : Nat) (messages : List Message) (log : List ToolCallEntry) (turns calls : Nat),
      (runLoop backend tts execNet tools fuel messages log turns calls).resp.turns ≤
        turns + fuel := by
  intro fuel
  induction fuel with
  | zero => intro messages log turns calls; simp [runLoop]
  | succ n ih =>
    intro messages log turns calls
    cases hb : backend (toolConfig tools) messages with
    | clientError m => rw [runLoop_clientError _ _ _ _ _ _ _ _ _ _ hb]; simp
    | otherError m => rw [runLoop_otherError _ _ _ _ _ _ _ _ _ _ hb]; simp
    | reply sr outMsg =>
      by_cases h1 : sr = some "end_turn"
      · subst h1
        rw [runLoop_endTurn _ _ _ _ _ _ _ _ _ _ hb]; simp
      · by_cases h2 : sr = some "tool_use"
        · subst h2
          rw [runLoop_toolUse _ _ _ _ _ _ _ _ _ _ hb]
          have := ih
            (messages ++ [outMsg,
              { role := "user",
                content := triplesResults tts execNet (toolUseTriples outMsg.content) }])
            (log ++ triplesLog (toolUseTriples outMsg.content)) (turns + 1) (calls + 1)
          omega
        · by_cases h3 : sr = some "max_tokens"
          · subst h3
            rw [runLoop_maxTokens _ _ _ _ _ _ _ _ _ _ hb]; simp
          · simp only [runLoop, hb, if_neg h1, if_neg h2, if_neg h3]
            simp

theorem runLoop_exhausted_iff (backend : Option (List ToolSpec) → List Message → BackendResult)
    (tts : List (String × String)) (execNet : String → String → Json → ExecOutcome)
    (tools : List ToolSpec) :
    ∀ (fuel : Nat) (messages : List Message) (log : List ToolCallEntry) (turns calls : Nat),
      (runLoop backend tts execNet tools fuel messages log turns calls).outcome =
          Outcome.exhausted ↔
        allToolUseReplies backend tts execNet tools fuel messages log = true := by
  intro fuel
  induction fuel with
  | zero => intro messages log turns calls; simp [runLoop, allToolUseReplies]
  | succ n ih =>
    intro messages log turns calls
    cases hb : backend (toolConfig tools) messages with
    | clientError m =>
      rw [runLoop_clientError _ _ _ _ _ _ _ _ _ _ hb]
      simp [allToolUseReplies, hb]
    | otherError m =>
      rw [runLoop_otherError _ _ _ _ _ _ _ _ _ _ hb]
      simp [allToolUseReplies, hb]
    | reply sr outMsg =>
      by_cases h2 : sr = some "tool_use"
      · subst h2
        rw [runLoop_toolUse _ _ _ _ _ _ _ _ _ _ hb]
        rw [ih]
        simp [allToolUseReplies, hb, processToolUses_eq]
      · by_cases h1 : sr = some "end_turn"
        · subst h1
          rw [runLoop_endTurn _ _ _ _ _ _ _ _ _ _ hb]
          simp [allToolUseReplies, hb]
        · by_cases h3 : sr = some "max_tokens"
          · subst h3
            rw [runLoop_maxTokens _ _ _ _ _ _ _ _ _ _ hb]
            simp [allToolUseReplies, hb]
          · simp only [runLoop, hb, if_neg h1, if_neg h2, if_neg h3]
            simp [allToolUseReplies, hb, if_neg h2]

theorem runLoop_exhausted_spec (backend : Option (List ToolSpec) → List Message → BackendResult)
    (tts : List (String × String)) (execNet : String → String → Json → ExecOutcome)
    (tools : List ToolSpec) :
    ∀ (fuel : Nat) (messages : List Message) (log : List ToolCallEntry) (turns calls : Nat),
      (runLoop backend tts execNet tools fuel messages log turns calls).outcome =
          Outcome.exhausted →
        (runLoop backend tts execNet tools fuel messages log turns calls).resp.turns =
            turns + fuel ∧
          (runLoop backend tts execNet tools fuel messages log turns calls).resp.response =
            "Max turns reached" := by
  intro fuel
  induction fuel with
  | zero => intro messages log turns calls _; simp [runLoop]
  | succ n ih =>
    intro messages log turns calls hx
    cases hb : backend (toolConfig tools) messages with
    | clientError m =>
      rw [runLoop_clientError _ _ _ _ _ _ _ _ _ _ hb] at hx
      simp at hx
    | otherError m =>
      rw [runLoop_otherError _ _ _ _ _ _ _ _ _ _ hb] at hx
      simp at hx
    | reply sr outMsg =>
      by_cases h2 : sr = some "tool_use"
      · subst h2
        rw [runLoop_toolUse _ _ _ _ _ _ _ _ _ _ hb] at hx ⊢
        obtain ⟨ht, hr⟩ := ih
          (messages ++ [outMsg,
            { role := "user",
              content := triplesResults tts execNet (toolUseTriples outMsg.content) }])
          (log ++ triplesLog (toolUseTriples outMsg.content)) (turns + 1) (calls + 1) hx
        exact ⟨by omega, hr⟩
      · by_cases h1 : sr = some "end_turn"
        · subst h1
          rw [runLoop_endTurn _ _ _ _ _ _ _ _ _ _ hb] at hx
          simp at hx
        · by_cases h3 : sr = some "max_tokens"
          · subst h3
            rw [runLoop_maxTokens _ _ _ _ _ _ _ _ _ _ hb] at hx
            simp at hx
          · simp only [runLoop, hb, if_neg h1, if_neg h2, if_neg h3] at hx
            simp at hx

/-! ### Characterization of the catalog fetch -/

theorem addTools_fst (url : String) :
    ∀ (ts : List Json) (acc : List ToolSpec × List (String × String)),
      (addTools url acc ts).1 = acc.1 ++ convertLeading ts := by
  intro ts
  induction ts with
  | nil => intro acc; simp [addTools, convertLeading]
  | cons t rest ih =>
    intro acc
    cases hc : convertTool t with
    | none => simp [addTools, hc, convertLeading]
    | some spec => simp [addTools, hc, convertLeading, ih]

theorem fetchStep_fst (net : String → ListOutcome)
    (acc : List ToolSpec × List (String × String)) (server : String × String) :
    (fetchStep net acc server).1 = acc.1 ++ endpointContribution net server.2 := by
  cases hn : net server.2 with
  | exn m => simp [fetchStep, endpointContribution, hn]
  | resp status body =>
    by_cases hs : status = 200
    · subst hs
      cases he : extractToolList body with
      | none => simp [fetchStep, endpointContribution, hn, he]
      | some ts => simp [fetchStep, endpointContribution, hn, he, addTools_fst]
    · simp [fetchStep, endpointContribution, hn, if_neg hs]

theorem foldl_fetchStep_fst (net : String → ListOutcome) :
    ∀ (servers : List (String × String)) (init : List ToolSpec × List (String × String)),
      (servers.foldl (fetchStep net) init).1 =
        init.1 ++ (servers.map (fun s => endpointContribution net s.2)).flatten := by
  intro servers
  induction servers with
  | nil => intro init; simp
  | cons server rest ih =>
    intro init
    simp only [List.foldl_cons, List.map_cons, List.flatten_cons]
    rw [ih, fetchStep_fst]
    simp

theorem fetch_cached (servers : List (String × String)) (net : String → ListOutcome)
    (st : MCPClientState) (cache : List ToolSpec) (h : st.tools_cache = some cache) :
    fetch_all_tools servers net st = (cache, st, []) := by
  simp [fetch_all_tools, h]

theorem fetch_sets_cache (servers : List (String × String)) (net : String → ListOutcome)
    (st : MCPClientState) :
    (fetch_all_tools servers net st).2.1.tools_cache =
      some (fetch_all_tools servers net st).1 := by
  cases h : st.tools_cache with
  | none => simp [fetch_all_tools, h]
  | some cache => simp [fetch_all_tools, h]

/-! ### Text concatenation -/

theorem concatTexts_eq (blocks : List ContentBlock) :
    concatTexts blocks = joinText (blocks.filterMap textOf) := by
  suffices h : ∀ (blocks : List ContentBlock) (acc : String),
      blocks.foldl
        (fun acc b =>
          match b with
          | ContentBlock.text t => acc ++ t
          | _ => acc)
        acc = acc ++ joinText (blocks.filterMap textOf) by
    simpa [concatTexts] using h blocks ""
  intro blocks
  induction blocks with
  | nil => intro acc; simp [joinText]
  | cons b rest ih =>
    intro acc
    cases b with
    | text s =>
      simp only [List.foldl_cons, List.filterMap_cons]
      rw [ih]
      simp [textOf, joinText, String.append_assoc]
    | toolUse id name input => simpa [textOf] using ih acc
    | toolResult id r => simpa [textOf] using ih acc

/-! ### Claim theorems -/

/-- Claim C1: on a turn where the backend declares the `tool_use` stop
condition, the loop appends the assistant message and then exactly one
user-role message whose content is the tool-result blocks in the order
of the corresponding `toolUse` blocks, each tagged with its paired call
id, and extends the tool-call log with (tool name, arguments, call id)
in that same invocation order — then continues with the next turn. -/
theorem C1_tool_results_single_user_message
    (backend : Option (List ToolSpec) → List Message → BackendResult)
    (tts : List (String × String)) (execNet : String → String → Json → ExecOutcome)
    (tools : List ToolSpec) (fuel : Nat) (messages : List Message)
    (log : List ToolCallEntry) (turns calls : Nat) (outMsg : Message)
    (h : backend (toolConfig tools) messages = BackendResult.reply (some "tool_use") outMsg) :
    runLoop backend tts execNet tools (fuel + 1) messages log turns calls =
      runLoop backend tts execNet tools fuel
        (messages ++ [outMsg,
          { role := "user",
            content := (toolUseTriples outMsg.content).map
              (fun t => ContentBlock.toolResult t.1
                (execute_tool tts execNet t.2.1 t.2.2)) }])
        (log ++ (toolUseTriples outMsg.content).map
          (fun t => { tool := t.2.1, input := t.2.2, tool_use_id := t.1 }))
        (turns + 1) (calls + 1) :=
  runLoop_toolUse backend tts execNet tools fuel messages log turns calls outMsg h

/-- Witness for C1: a backend that requests two tool uses (with an
interleaved text block) makes the loop append one user message with the
two tool results in order, ids `t1` then `t2`, and log the two calls in
that order. -/
theorem C1_tool_results_single_user_message_witness :
    ((fun (_ : Option (List ToolSpec)) (_ : List Message) =>
        BackendResult.reply (some "tool_use")
          { role := "assistant",
            content := [ContentBlock.toolUse "t1" "calc" (Json.obj [("a", Json.num 6)]),
                        ContentBlock.text "let me compute",
                        ContentBlock.toolUse "t2" "read_file" (Json.obj [("path", Json.str "x")])] })
        (toolConfig []) [{ role := "user", content := [ContentBlock.text "q"] }] =
      BackendResult.reply (some "tool_use")
        { role := "assistant",
          content := [ContentBlock.toolUse "t1" "calc" (Json.obj [("a", Json.num 6)]),
                      ContentBlock.text "let me compute",
                      ContentBlock.toolUse "t2" "read_file" (Json.obj [("path", Json.str "x")])] }) ∧
    runLoop
        (fun _ _ => BackendResult.reply (some "tool_use")
          { role := "assistant",
            content := [ContentBlock.toolUse "t1" "calc" (Json.obj [("a", Json.num 6)]),
                        ContentBlock.text "let me compute",
                        ContentBlock.toolUse "t2" "read_file" (Json.obj [("path", Json.str "x")])] })
        [("calc", "http://mcp-calculator:3002")] (fun _ _ _ => ExecOutcome.exn "timeout") []
        1 [{ role := "user", content := [ContentBlock.text "q"] }] [] 0 0 =
      runLoop
        (fun _ _ => BackendResult.reply (some "tool_use")
          { role := "assistant",
            content := [ContentBlock.toolUse "t1" "calc" (Json.obj [("a", Json.num 6)]),
                        ContentBlock.text "let me compute",
                        ContentBlock.toolUse "t2" "read_file" (Json.obj [("path", Json.str "x")])] })
        [("calc", "http://mcp-calculator:3002")] (fun _ _ _ => ExecOutcome.exn "timeout") []
        0
        ([{ role := "user", content := [ContentBlock.text "q"] }] ++
          [{ role := "assistant",
             content := [ContentBlock.toolUse "t1" "calc" (Json.obj [("a", Json.num 6)]),
                         ContentBlock.text "let me compute",
                         ContentBlock.toolUse "t2" "read_file" (Json.obj [("path", Json.str "x")])] },
           { role := "user",
             content := (toolUseTriples
                 [ContentBlock.toolUse "t1" "calc" (Json.obj [("a", Json.num 6)]),
                  ContentBlock.text "let me compute",
                  ContentBlock.toolUse "t2" "read_file" (Json.obj [("path", Json.str "x")])]).map
               (fun t => ContentBlock.toolResult t.1
                 (execute_tool [("calc", "http://mcp-calculator:3002")]
                   (fun _ _ _ => ExecOutcome.exn "timeout") t.2.1 t.2.2)) }])
        ([] ++ (toolUseTriples
            [ContentBlock.toolUse "t1" "calc" (Json.obj [("a", Json.num 6)]),
             ContentBlock.text "let me compute",
             ContentBlock.toolUse "t2" "read_file" (Json.obj [("path", Json.str "x")])]).map
          (fun t => { tool := t.2.1, input := t.2.2, tool_use_id := t.1 }))
        1 1 :=
  ⟨rfl,
   C1_tool_results_single_user_message _ _ _ _ 0 _ _ 0 0 _ rfl⟩

/-- Claim C4: a second `fetch_all_tools` call on the state left by a
first call returns the identical catalog, leaves the state unchanged,
and issues no network request (the queried-url instrumentation is
empty) — whatever the network would have answered the second time. -/
theorem C4_fetch_idempotent (servers : List (String × String))
    (net net' : String → ListOutcome) (st : MCPClientState) :
    (fetch_all_tools servers net' (fetch_all_tools servers net st).2.1).1 =
        (fetch_all_tools servers net st).1 ∧
      (fetch_all_tools servers net' (fetch_all_tools servers net st).2.1).2.1 =
        (fetch_all_tools servers net st).2.1 ∧
      (fetch_all_tools servers net' (fetch_all_tools servers net st).2.1).2.2 = [] := by
  rw [fetch_cached servers net' _ _ (fetch_sets_cache servers net st)]
  exact ⟨rfl, rfl, rfl⟩

/-- Claim C7: a backend-call fault (a raised `ClientError` or any other
exception, covering transport errors and malformed responses)
immediately terminates the run in the aborted state with the
descriptive error message, the turn count reached, and the log
accumulated so far; the result does not depend on the remaining fuel
(no retry, no further iterations) and exactly one more backend call was
made. -/
theorem C7_backend_fault_aborts
    (backend : Option (List ToolSpec) → List Message → BackendResult)
    (tts : List (String × String)) (execNet : String → String → Json → ExecOutcome)
    (tools : List ToolSpec) (fuel : Nat) (messages : List Message)
    (log : List ToolCallEntry) (turns calls : Nat) (r : BackendResult)
    (h : backend (toolConfig tools) messages = r) (hf : r.isFault = true) :
    runLoop backend tts execNet tools (fuel + 1) messages log turns calls =
      { resp := { response := renderFault r, turns := turns + 1, tool_calls := log },
        outcome := Outcome.aborted, messages := messages, backendCalls := calls + 1 } := by
  cases r with
  | clientError m => exact runLoop_clientError backend tts execNet tools fuel messages log turns calls m h
  | otherError m => exact runLoop_otherError backend tts execNet tools fuel messages log turns calls m h
  | reply sr outMsg => simp [BackendResult.isFault] at hf

/-- Witness for C7: a backend whose call raises a `ClientError` with
message `Throttling` aborts at turn 1 with the rendered message and the
empty log, regardless of 5 remaining turns of fuel. -/
theorem C7_backend_fault_aborts_witness :
    ((fun (_ : Option (List ToolSpec)) (_ : List Message) => BackendResult.clientError "Throttling")
        (toolConfig []) [{ role := "user", content := [ContentBlock.text "q"] }] =
      BackendResult.clientError "Throttling") ∧
    (BackendResult.clientError "Throttling").isFault = true ∧
    runLoop (fun _ _ => BackendResult.clientError "Throttling") []
        (fun _ _ _ => ExecOutcome.exn "unused") [] (4 + 1)
        [{ role := "user", content := [ContentBlock.text "q"] }] [] 0 0 =
      { resp := { response := renderFault (BackendResult.clientError "Throttling"),
                  turns := 0 + 1, tool_calls := [] },
        outcome := Outcome.aborted,
        messages := [{ role := "user", content := [ContentBlock.text "q"] }],
        backendCalls := 0 + 1 } :=
  ⟨rfl, rfl,
   C7_backend_fault_aborts _ _ _ _ 4 _ _ 0 0 _ rfl rfl⟩

/-- Claim C8: a turn where the backend declares the `end_turn` stop
condition returns the completed outcome whose response text is the
in-order concatenation of the text content blocks of the assistant
message (non-text blocks contribute nothing), with the current turn
count and the tool-call log, and with the assistant message appended to
the history. -/
theorem C8_end_turn_concatenates_texts
    (backend : Option (List ToolSpec) → List Message → BackendResult)
    (tts : List (String × String)) (execNet : String → String → Json → ExecOutcome)
    (tools : List ToolSpec) (fuel : Nat) (messages : List Message)
    (log : List ToolCallEntry) (turns calls : Nat) (outMsg : Message)
    (h : backend (toolConfig tools) messages = BackendResult.reply (some "end_turn") outMsg) :
    runLoop backend tts execNet tools (fuel + 1) messages log turns calls =
      { resp := { response := joinText (outMsg.content.filterMap textOf),
                  turns := turns + 1, tool_calls := log },
        outcome := Outcome.completed, messages := messages ++ [outMsg],
        backendCalls := calls + 1 } := by
  rw [runLoop_endTurn backend tts execNet tools fuel messages log turns calls outMsg h,
    concatTexts_eq]

/-- Witness for C8: an assistant message `[text "42", toolUse, text "!"]`
under `end_turn` yields the completed response built from its text
blocks only, with the assistant message in the final history. -/
theorem C8_end_turn_concatenates_texts_witness :
    ((fun (_ : Option (List ToolSpec)) (_ : List Message) =>
        BackendResult.reply (some "end_turn")
          { role := "assistant",
            content := [ContentBlock.text "42", ContentBlock.toolUse "t9" "calc" Json.null,
                        ContentBlock.text "!"] })
        (toolConfig []) [{ role := "user", content := [ContentBlock.text "q"] }] =
      BackendResult.reply (some "end_turn")
        { role := "assistant",
          content := [ContentBlock.text "42", ContentBlock.toolUse "t9" "calc" Json.null,
                      ContentBlock.text "!"] }) ∧
    runLoop
        (fun _ _ => BackendResult.reply (some "end_turn")
          { role := "assistant",
            content := [ContentBlock.text "42", ContentBlock.toolUse "t9" "calc" Json.null,
                        ContentBlock.text "!"] })
        [] (fun _ _ _ => ExecOutcome.exn "unused") [] (2 + 1)
        [{ role := "user", content := [ContentBlock.text "q"] }] [] 0 0 =
      { resp := { response := "42!", turns := 0 + 1, tool_calls := [] },
        outcome := Outcome.completed,
        messages := [{ role := "user", content := [ContentBlock.text "q"] }] ++
          [{ role := "assistant",
             content := [ContentBlock.text "42", ContentBlock.toolUse "t9" "calc" Json.null,
                         ContentBlock.text "!"] }],
        backendCalls := 0 + 1 } :=
  ⟨rfl,
   C8_end_turn_concatenates_texts _ _ _ _ 2 _ _ 0 0
     { role := "assistant",
       content := [ContentBlock.text "42", ContentBlock.toolUse "t9" "calc" Json.null,
                   ContentBlock.text "!"] } rfl⟩

/-- Claim C9: a populated tools cache is never modified again — any
later `fetch_all_tools` call returns the cached list, keeps the state
identical and issues no network request; and when a first fetch sees
every endpoint fail (each endpoint contributing nothing), it caches the
empty catalog, so a transient total outage at first access permanently
yields an empty catalog. -/
theorem C9_cache_permanent_even_when_empty (servers : List (String × String))
    (net : String → ListOutcome) (st : MCPClientState) (cache : List ToolSpec)
    (h : st.tools_cache = some cache) :
    fetch_all_tools servers net st = (cache, st, []) ∧
      (∀ netF : String → ListOutcome, (∀ u, ∃ m, netF u = ListOutcome.exn m) →
        (fetch_all_tools servers netF initialClient).1 = [] ∧
          (fetch_all_tools servers netF initialClient).2.1.tools_cache = some []) := by
  refine ⟨fetch_cached servers net st cache h, ?_⟩
  intro netF hfail
  have hcat : (fetch_all_tools servers netF initialClient).1 = [] := by
    have hflat : (servers.map (fun s => endpointContribution netF s.2)).flatten = [] := by
      rw [List.flatten_eq_nil_iff]
      intro l hl
      obtain ⟨s, _, rfl⟩ := List.mem_map.mp hl
      obtain ⟨m, hm⟩ := hfail s.2
      simp [endpointContribution, hm]
    simp [fetch_all_tools, initialClient, foldl_fetchStep_fst, hflat]
  refine ⟨hcat, ?_⟩
  rw [fetch_sets_cache, hcat]

/-- Witness for C9: with both default endpoints unreachable, the first
fetch caches the empty catalog and the second fetch returns it with no
network request. -/
theorem C9_cache_permanent_even_when_empty_witness :
    ((fetch_all_tools MCP_SERVERS (fun _ => ListOutcome.exn "connection refused")
        initialClient).2.1.tools_cache = some []) ∧
    fetch_all_tools MCP_SERVERS (fun _ => ListOutcome.exn "connection refused")
        (fetch_all_tools MCP_SERVERS (fun _ => ListOutcome.exn "connection refused")
          initialClient).2.1 =
      ([], (fetch_all_tools MCP_SERVERS (fun _ => ListOutcome.exn "connection refused")
          initialClient).2.1, []) ∧
      (∀ netF : String → ListOutcome, (∀ u, ∃ m, netF u = ListOutcome.exn m) →
        (fetch_all_tools MCP_SERVERS netF initialClient).1 = [] ∧
          (fetch_all_tools MCP_SERVERS netF initialClient).2.1.tools_cache = some []) :=
  ⟨rfl,
   C9_cache_permanent_even_when_empty MCP_SERVERS
     (fun _ => ListOutcome.exn "connection refused") _ [] rfl⟩

/-- Claim C10: for `max_turns ≤ 0` the loop body never runs — `run`
returns the `Max turns reached` response with 0 turns, an empty log,
zero backend calls (hence no tool dispatch, since every dispatch is
preceded by a log entry), while the catalog fetch has still updated the
client state. -/
theorem C10_nonpositive_max_turns (servers : List (String × String))
    (listNet : String → ListOutcome)
    (backend : Option (List ToolSpec) → List Message → BackendResult)
    (execNet : String → String → Json → ExecOutcome)
    (st : MCPClientState) (user_message : String) (max_turns : Int)
    (h : max_turns ≤ 0) :
    run servers listNet backend execNet st user_message max_turns =
      ({ resp := { response := "Max turns reached", turns := 0, tool_calls := [] },
         outcome := Outcome.exhausted,
         messages := [{ role := "user", content := [ContentBlock.text user_message] }],
         backendCalls := 0 },
       (fetch_all_tools servers listNet st).2.1) := by
  have hz : max_turns.toNat = 0 := Int.toNat_of_nonpos h
  simp [run, hz, runLoop]

/-- Witness for C10: `max_turns = -3` with unreachable endpoints gives
the sentinel response at 0 turns with no backend call, and the fetch
has cached the (empty) catalog. -/
theorem C10_nonpositive_max_turns_witness :
    ((-3 : Int) ≤ 0) ∧
    run MCP_SERVERS (fun _ => ListOutcome.exn "connection refused")
        (fun _ _ => BackendResult.reply (some "end_turn")
          { role := "assistant", content := [ContentBlock.text "unused"] })
        (fun _ _ _ => ExecOutcome.exn "unused")
        initialClient "hello" (-3) =
      ({ resp := { response := "Max turns reached", turns := 0, tool_calls := [] },
         outcome := Outcome.exhausted,
         messages := [{ role := "user", content := [ContentBlock.text "hello"] }],
         backendCalls := 0 },
       (fetch_all_tools MCP_SERVERS (fun _ => ListOutcome.exn "connection refused")
         initialClient).2.1) :=
  ⟨by decide,
   C10_nonpositive_max_turns MCP_SERVERS _ _ _ initialClient "hello" (-3) (by decide)⟩

/-- Claim C2: for every `max_turns ≥ 1`, the returned turn count is at
most `max_turns`, and the turn count equals `max_turns` with the
exhausted outcome (the fixed `Max turns reached` response) exactly when
every one of the `max_turns` backend calls replied with the
(non-terminal) `tool_use` stop condition — that is, no terminal stop
condition and no backend fault occurred. -/
theorem C2_turn_bound_and_exhaustion (servers : List (String × String))
    (listNet : String → ListOutcome)
    (backend : Option (List ToolSpec) → List Message → BackendResult)
    (execNet : String → String → Json → ExecOutcome)
    (st : MCPClientState) (user_message : String) (max_turns : Int)
    (h : 1 ≤ max_turns) :
    (((run servers listNet backend execNet st user_message max_turns).1.resp.turns : Int) ≤
        max_turns) ∧
      ((((run servers listNet backend execNet st user_message max_turns).1.resp.turns : Int) =
            max_turns ∧
          (run servers listNet backend execNet st user_message max_turns).1.outcome =
            Outcome.exhausted ∧
          (run servers listNet backend execNet st user_message max_turns).1.resp.response =
            "Max turns reached") ↔
        allToolUseReplies backend
            (fetch_all_tools servers listNet st).2.1.tool_to_server execNet
            (fetch_all_tools servers listNet st).1 max_turns.toNat
            [{ role := "user", content := [ContentBlock.text user_message] }] [] = true) := by
  simp only [run]
  constructor
  · have hle := runLoop_turns_le backend
      (fetch_all_tools servers listNet st).2.1.tool_to_server execNet
      (fetch_all_tools servers listNet st).1 max_turns.toNat
      [{ role := "user", content := [ContentBlock.text user_message] }] [] 0 0
    omega
  · constructor
    · rintro ⟨-, hx, -⟩
      exact (runLoop_exhausted_iff backend
        (fetch_all_tools servers listNet st).2.1.tool_to_server execNet
        (fetch_all_tools servers listNet st).1 max_turns.toNat
        [{ role := "user", content := [ContentBlock.text user_message] }] [] 0 0).mp hx
    · intro ha
      have hx := (runLoop_exhausted_iff backend
        (fetch_all_tools servers listNet st).2.1.tool_to_server execNet
        (fetch_all_tools servers listNet st).1 max_turns.toNat
        [{ role := "user", content := [ContentBlock.text user_message] }] [] 0 0).mpr ha
      obtain ⟨ht, hr⟩ := runLoop_exhausted_spec backend
        (fetch_all_tools servers listNet st).2.1.tool_to_server execNet
        (fetch_all_tools servers listNet st).1 max_turns.toNat
        [{ role := "user", content := [ContentBlock.text user_message] }] [] 0 0 hx
      exact ⟨by omega, hx, hr⟩

/-- Witness for C2 at `max_turns = 2`: a backend that always requests a
tool use never reaches a terminal branch, so the run exhausts its two
turns with the sentinel response. -/
theorem C2_turn_bound_and_exhaustion_witness :
    ((1 : Int) ≤ 2) ∧
    ((((run [] (fun _ => ListOutcome.exn "no servers")
          (fun _ _ => BackendResult.reply (some "tool_use")
            { role := "assistant", content := [] })
          (fun _ _ _ => ExecOutcome.exn "unused")
          initialClient "loop forever" 2).1.resp.turns : Int) ≤ 2) ∧
      ((((run [] (fun _ => ListOutcome.exn "no servers")
            (fun _ _ => BackendResult.reply (some "tool_use")
              { role := "assistant", content := [] })
            (fun _ _ _ => ExecOutcome.exn "unused")
            initialClient "loop forever" 2).1.resp.turns : Int) = 2 ∧
          (run [] (fun _ => ListOutcome.exn "no servers")
            (fun _ _ => BackendResult.reply (some "tool_use")
              { role := "assistant", content := [] })
            (fun _ _ _ => ExecOutcome.exn "unused")
            initialClient "loop forever" 2).1.outcome = Outcome.exhausted ∧
          (run [] (fun _ => ListOutcome.exn "no servers")
            (fun _ _ => BackendResult.reply (some "tool_use")
              { role := "assistant", content := [] })
            (fun _ _ _ => ExecOutcome.exn "unused")
            initialClient "loop forever" 2).1.resp.response = "Max turns reached") ↔
        allToolUseReplies
            (fun _ _ => BackendResult.reply (some "tool_use")
              { role := "assistant", content := [] })
            (fetch_all_tools [] (fun _ => ListOutcome.exn "no servers")
              initialClient).2.1.tool_to_server
            (fun _ _ _ => ExecOutcome.exn "unused")
            (fetch_all_tools [] (fun _ => ListOutcome.exn "no servers") initialClient).1
            (2 : Int).toNat
            [{ role := "user", content := [ContentBlock.text "loop forever"] }] [] = true)) :=
  ⟨by decide,
   C2_turn_bound_and_exhaustion [] (fun _ => ListOutcome.exn "no servers")
     (fun _ _ => BackendResult.reply (some "tool_use")
       { role := "assistant", content := [] })
     (fun _ _ _ => ExecOutcome.exn "unused")
     initialClient "loop forever" 2 (by decide)⟩

/-- Counterexample for claim C3: when two endpoints declare a tool of
the same name, the merged catalog contains the entry twice — tool names
are not globally unique in the merged list (`all_tools.append` is
unconditional; only the `tool_to_server` map is overwritten). -/
theorem C3_counterexample_duplicate_names :
    ¬ (((fetch_all_tools dupServers dupNet initialClient).1.map ToolSpec.name).Nodup) := by
  decide

/-- Claim C3 (amended): when two endpoints declare a tool of the same
name, the merged catalog keeps both entries (so the name appears twice,
not uniquely), while the name-to-endpoint map is last-write-wins: the
later-processed endpoint overwrites the earlier one's mapping, and
dispatch for that name routes to the later endpoint. -/
theorem C3_amended_duplicates_kept_lastwritewins (n u1 u2 : String)
    (net : String → ListOutcome)
    (h1 : net u1 = ListOutcome.resp 200
      (Json.obj [("tools", Json.arr [Json.obj [("name", Json.str n)]])]))
    (h2 : net u2 = ListOutcome.resp 200
      (Json.obj [("tools", Json.arr [Json.obj [("name", Json.str n)]])]))
    (hne : u2 ≠ "") :
    ((fetch_all_tools [("s1", u1), ("s2", u2)] net initialClient).1.map ToolSpec.name =
        [n, n]) ∧
      ((fetch_all_tools [("s1", u1), ("s2", u2)] net initialClient).2.1.tool_to_server.lookup
          n = some u2) ∧
      (∀ (execNet : String → String → Json → ExecOutcome) (input : Json),
        execute_tool
            (fetch_all_tools [("s1", u1), ("s2", u2)] net initialClient).2.1.tool_to_server
            execNet n input =
          handleExecOutcome (execNet u2 n input)) := by
  have hf : fetch_all_tools [("s1", u1), ("s2", u2)] net initialClient =
      ([{ name := n, description := "", inputSchema := defaultSchema },
        { name := n, description := "", inputSchema := defaultSchema }],
       { tools_cache := some
           [{ name := n, description := "", inputSchema := defaultSchema },
            { name := n, description := "", inputSchema := defaultSchema }],
         tool_to_server := [(n, u2)] },
       [u1, u2]) := by
    simp [fetch_all_tools, initialClient, fetchStep, h1, h2, extractToolList, addTools,
      convertTool, getStr, dictInsert, List.lookup]
  refine ⟨by rw [hf]; simp, by rw [hf]; simp [List.lookup], ?_⟩
  intro execNet input
  rw [hf]
  simp [execute_tool, List.lookup, hne]

/-- Witness for the amended C3 at `n = "calc"` with the two scenario
endpoints: the catalog lists `calc` twice, the map routes `calc` to the
second endpoint, and dispatch calls the second endpoint. -/
theorem C3_amended_duplicates_kept_lastwritewins_witness :
    (dupNet "http://a" = ListOutcome.resp 200
      (Json.obj [("tools", Json.arr [Json.obj [("name", Json.str "calc")]])])) ∧
    (dupNet "http://b" = ListOutcome.resp 200
      (Json.obj [("tools", Json.arr [Json.obj [("name", Json.str "calc")]])])) ∧
    ("http://b" ≠ "") ∧
    (((fetch_all_tools [("s1", "http://a"), ("s2", "http://b")] dupNet initialClient).1.map
        ToolSpec.name = ["calc", "calc"]) ∧
      ((fetch_all_tools [("s1", "http://a"), ("s2", "http://b")] dupNet
          initialClient).2.1.tool_to_server.lookup "calc" = some "http://b") ∧
      (∀ (execNet : String → String → Json → ExecOutcome) (input : Json),
        execute_tool
            (fetch_all_tools [("s1", "http://a"), ("s2", "http://b")] dupNet
              initialClient).2.1.tool_to_server
            execNet "calc" input =
          handleExecOutcome (execNet "http://b" "calc" input))) :=
  ⟨rfl, rfl, by decide,
   C3_amended_duplicates_kept_lastwritewins "calc" "http://a" "http://b" dupNet rfl rfl
     (by decide)⟩

/-- Counterexample for claim C5: dispatching the unknown tool `calc`
returns the payload whose message is `Tool calc not found` — not the
payload `tool not found` the claim states. -/
theorem C5_counterexample_payload_wording :
    execute_tool [] (fun _ _ _ => ExecOutcome.exn "unused") "calc" Json.null =
        "\x7b\"error\": \"Tool calc not found\"\x7d" ∧
      execute_tool [] (fun _ _ _ => ExecOutcome.exn "unused") "calc" Json.null ≠
        "\x7b\"error\": \"tool not found\"\x7d" := by
  exact ⟨rfl, by decide⟩

/-- Claim C5 (amended): for a tool name absent from the lookup map,
dispatch returns the structured error payload
`json.dumps` of an object whose `error` field reads
`Tool <name> not found` — returned as data, never raised — and an
unknown-tool dispatch during a `tool_use` turn does not terminate the
conversation: the error flows back as an ordinary tool-result block in
the single appended user message and the loop continues with the next
turn. -/
theorem C5_amended_unknown_tool_is_data (tts : List (String × String))
    (execNet : String → String → Json → ExecOutcome) (name : String) (input : Json)
    (h : tts.lookup name = none) :
    execute_tool tts execNet name input = toolNotFoundPayload name ∧
      (∀ (backend : Option (List ToolSpec) → List Message → BackendResult)
        (tools : List ToolSpec) (fuel : Nat) (messages : List Message)
        (log : List ToolCallEntry) (turns calls : Nat) (id : String),
        backend (toolConfig tools) messages =
            BackendResult.reply (some "tool_use")
              { role := "assistant", content := [ContentBlock.toolUse id name input] } →
          runLoop backend tts execNet tools (fuel + 1) messages log turns calls =
            runLoop backend tts execNet tools fuel
              (messages ++
                [{ role := "assistant", content := [ContentBlock.toolUse id name input] },
                 { role := "user",
                   content := [ContentBlock.toolResult id (toolNotFoundPayload name)] }])
              (log ++ [{ tool := name, input := input, tool_use_id := id }])
              (turns + 1) (calls + 1)) := by
  have hexec : execute_tool tts execNet name input = toolNotFoundPayload name := by
    simp [execute_tool, h]
  refine ⟨hexec, ?_⟩
  intro backend tools fuel messages log turns calls id hb
  rw [runLoop_toolUse backend tts execNet tools fuel messages log turns calls _ hb]
  simp [toolUseTriples, triplesResults, triplesLog, hexec]

/-- Witness for the amended C5: with an empty lookup map, dispatching
`calc` returns the not-found payload, and a turn requesting `calc`
appends the error as a tool result and loops on. -/
theorem C5_amended_unknown_tool_is_data_witness :
    (([] : List (String × String)).lookup "calc" = none) ∧
    (execute_tool [] (fun _ _ _ => ExecOutcome.exn "unused") "calc" Json.null =
      toolNotFoundPayload "calc") ∧
    ((fun (_ : Option (List ToolSpec)) (_ : List Message) =>
        BackendResult.reply (some "tool_use")
          { role := "assistant", content := [ContentBlock.toolUse "t1" "calc" Json.null] })
        (toolConfig []) [{ role := "user", content := [ContentBlock.text "q"] }] =
      BackendResult.reply (some "tool_use")
        { role := "assistant", content := [ContentBlock.toolUse "t1" "calc" Json.null] }) ∧
    runLoop
        (fun _ _ => BackendResult.reply (some "tool_use")
          { role := "assistant", content := [ContentBlock.toolUse "t1" "calc" Json.null] })
        [] (fun _ _ _ => ExecOutcome.exn "unused") [] (3 + 1)
        [{ role := "user", content := [ContentBlock.text "q"] }] [] 0 0 =
      runLoop
        (fun _ _ => BackendResult.reply (some "tool_use")
          { role := "assistant", content := [ContentBlock.toolUse "t1" "calc" Json.null] })
        [] (fun _ _ _ => ExecOutcome.exn "unused") [] 3
        ([{ role := "user", content := [ContentBlock.text "q"] }] ++
          [{ role := "assistant", content := [ContentBlock.toolUse "t1" "calc" Json.null] },
           { role := "user",
             content := [ContentBlock.toolResult "t1" (toolNotFoundPayload "calc")] }])
        ([] ++ [{ tool := "calc", input := Json.null, tool_use_id := "t1" }]) (0 + 1) (0 + 1) :=
  ⟨rfl,
   (C5_amended_unknown_tool_is_data [] (fun _ _ _ => ExecOutcome.exn "unused") "calc"
     Json.null rfl).1,
   rfl,
   (C5_amended_unknown_tool_is_data [] (fun _ _ _ => ExecOutcome.exn "unused") "calc"
     Json.null rfl).2
     (fun _ _ => BackendResult.reply (some "tool_use")
       { role := "assistant", content := [ContentBlock.toolUse "t1" "calc" Json.null] })
     [] 3 [{ role := "user", content := [ContentBlock.text "q"] }] [] 0 0 "t1" rfl⟩

/-- Counterexample for claim C6: endpoint `alpha` fails (its payload's
second entry is malformed and raises), yet the merged catalog is not
reduced by exactly `alpha`'s tools — `alpha`'s leading tool `good`
survives next to `beta`'s `other`, so the catalog is not the union of
tools from the succeeding endpoints only. -/
theorem C6_counterexample_partial_contribution :
    ((fetch_all_tools c6Servers c6Net initialClient).1.map ToolSpec.name =
        ["good", "other"]) ∧
      ((fetch_all_tools c6Servers c6Net initialClient).1.map ToolSpec.name ≠ ["other"]) := by
  exact ⟨rfl, by decide⟩

/-- Claim C6 (amended): the catalog fetch never aborts on an endpoint
failure; the merged catalog is exactly the concatenation, in
configuration order, of each endpoint's own contribution, where an
endpoint failing at the transport, status or top-level payload level
contributes nothing, and an endpoint whose tool list has a malformed
entry contributes the converted entries before that entry.  One
endpoint's failure therefore never affects another endpoint's
contribution, and an endpoint contributing zero tools is no error for
the caller. -/
theorem C6_amended_catalog_is_concat_of_contributions (servers : List (String × String))
    (net : String → ListOutcome) :
    (fetch_all_tools servers net initialClient).1 =
      (servers.map (fun s => endpointContribution net s.2)).flatten := by
  simp [fetch_all_tools, initialClient, foldl_fetchStep_fst]

end AgentService
